import Mathlib

/-!
Shallow embedding of src/repair_manager.pyw (SQLite + Tkinter repair-shop
manager).  The persistent store is the seven SQLite tables; every row is a
structure whose fields match the table columns.  Each call to run_query opens
its own connection, executes one statement and commits, so each statement is
an independently committed transition on the store state; operations below
are the statement sequences the source functions issue, with the current date
(date.today().isoformat()) passed explicitly.  SQLite REAL values (unit_cost)
are carried as rationals; they are only stored, never computed with.  The
source opens connections without PRAGMA foreign_keys, so foreign keys are not
enforced, and no table-level validation exists at this layer.
-/

namespace RepairManager

structure Customer where
  customer_id : Nat
  first_name : String
  last_name : String
  phone : String
  address : String
  email : String
deriving Repr, DecidableEq

structure Equipment where
  equipment_id : Nat
  customer_id : Nat
  make : String
  model : String
  cpu : String
  ram : String
  storage : String
  os : String
  serial_number : String
deriving Repr, DecidableEq

structure Technician where
  technician_id : Nat
  name : String
deriving Repr, DecidableEq

structure Part where
  part_id : Nat
  sku : String
  description : String
  quantity : Int
  unit_cost : Rat
deriving Repr, DecidableEq

structure WorkOrder where
  workorder_id : Nat
  equipment_id : Nat
  technician_id : Option Nat
  date_opened : String
  date_closed : Option String
  status : String
  work_description : String
deriving Repr, DecidableEq

structure WorkDetail where
  workdetail_id : Nat
  workorder_id : Nat
  date : String
  description : String
deriving Repr, DecidableEq

structure PartUsage where
  partsused_id : Nat
  workorder_id : Nat
  part_id : Nat
  quantity : Int
deriving Repr, DecidableEq

structure DB where
  customers : List Customer
  equipment : List Equipment
  technicians : List Technician
  parts : List Part
  workorders : List WorkOrder
  workdetails : List WorkDetail
  partsused : List PartUsage
deriving Repr, DecidableEq

/-- SQLite assigns a fresh rowid as one more than the largest rowid in the
table (the lastrowid run_query returns). -/
def freshId (ids : List Nat) : Nat := ids.foldr max 0 + 1

/-- INSERT INTO Customers (first_name, last_name, phone, address, email);
run_query returns lastrowid.  No validation at this layer. -/
def add_customer (first last phone address email : String) (db : DB) : DB × Nat :=
  let id := freshId (db.customers.map Customer.customer_id)
  ({ db with customers := db.customers ++ [⟨id, first, last, phone, address, email⟩] }, id)

/-- INSERT INTO Equipment (customer_id, make, model, cpu, ram, storage, os,
serial_number). -/
def add_equipment (customer_id : Nat) (make model cpu ram storage os_ serial : String)
    (db : DB) : DB × Nat :=
  let id := freshId (db.equipment.map Equipment.equipment_id)
  ({ db with equipment :=
      db.equipment ++ [⟨id, customer_id, make, model, cpu, ram, storage, os_, serial⟩] }, id)

/-- INSERT INTO Technicians (name). -/
def add_technician (name : String) (db : DB) : DB × Nat :=
  let id := freshId (db.technicians.map Technician.technician_id)
  ({ db with technicians := db.technicians ++ [⟨id, name⟩] }, id)

/-- INSERT INTO Parts (sku, description, quantity, unit_cost).  No validation
of sku or quantity at this layer. -/
def add_part (sku desc : String) (qty : Int) (cost : Rat) (db : DB) : DB × Nat :=
  let id := freshId (db.parts.map Part.part_id)
  ({ db with parts := db.parts ++ [⟨id, sku, desc, qty, cost⟩] }, id)

/-- INSERT INTO WorkOrders (..., date_opened, status, work_description) with
status the literal string Open and date_opened today. -/
def create_workorder (equipment_id : Nat) (technician_id : Option Nat)
    (work_description today : String) (db : DB) : DB × Nat :=
  let id := freshId (db.workorders.map WorkOrder.workorder_id)
  ({ db with workorders :=
      db.workorders ++ [⟨id, equipment_id, technician_id, today, none, "Open", work_description⟩] }, id)

/-- UPDATE WorkOrders SET date_closed=today, status=Closed WHERE
workorder_id=?.  Matching zero rows is not an error. -/
def close_workorder (workorder_id : Nat) (today : String) (db : DB) : DB :=
  { db with workorders := db.workorders.map (fun w =>
      if w.workorder_id == workorder_id then
        { w with date_closed := some today, status := "Closed" }
      else w) }

/-- INSERT INTO WorkDetails (workorder_id, date, description). -/
def add_work_detail (workorder_id : Nat) (description today : String) (db : DB) : DB × Nat :=
  let id := freshId (db.workdetails.map WorkDetail.workdetail_id)
  ({ db with workdetails := db.workdetails ++ [⟨id, workorder_id, today, description⟩] }, id)

/-- First statement of use_part: INSERT INTO PartsUsed (workorder_id, part_id,
quantity).  run_query commits this insert on its own connection before the
second statement runs. -/
def use_part_insert (workorder_id part_id : Nat) (qty : Int) (db : DB) : DB :=
  let id := freshId (db.partsused.map PartUsage.partsused_id)
  { db with partsused := db.partsused ++ [⟨id, workorder_id, part_id, qty⟩] }

/-- Second statement of use_part: UPDATE Parts SET quantity = quantity - ?
WHERE part_id = ?, committed by its own run_query call. -/
def use_part_decrement (part_id : Nat) (qty : Int) (db : DB) : DB :=
  { db with parts := db.parts.map (fun p =>
      if p.part_id == part_id then { p with quantity := p.quantity - qty } else p) }

/-- The whole of use_part: the two statements in sequence.  There is no
check of qty, of the workorder id or of the part id, and no transaction
spanning the two commits. -/
def use_part (workorder_id part_id : Nat) (qty : Int) (db : DB) : DB :=
  use_part_decrement part_id qty (use_part_insert workorder_id part_id qty db)

/-- The row shape produced by the SELECT in get_open_workorders: columns
wo.workorder_id, wo.date_opened, e.equipment_id, e.make, e.model,
c.first_name, c.last_name, t.name AS technician, wo.work_description. -/
structure OpenWorkOrderRow where
  workorder_id : Nat
  date_opened : String
  equipment_id : Nat
  make : String
  model : String
  first_name : String
  last_name : String
  technician : Option String
  work_description : String
deriving Repr, DecidableEq

/-- A SQL LEFT JOIN keeps the left row with a NULL partner when no right row
matches, and duplicates it per matching right row otherwise. -/
def leftJoinRows {α : Type} (l : List α) : List (Option α) :=
  if l.isEmpty then [none] else l.map some

/-- The open-work-orders report: WorkOrders JOIN Equipment JOIN Customers
LEFT JOIN Technicians, WHERE wo.status=Open, ORDER BY wo.date_opened (SQLite
BINARY collation on the ISO date strings, modelled by the String order). -/
def get_open_workorders (db : DB) : List OpenWorkOrderRow :=
  ((db.workorders.filter (fun wo => wo.status == "Open")).flatMap (fun wo =>
    (db.equipment.filter (fun e => e.equipment_id == wo.equipment_id)).flatMap (fun e =>
      (db.customers.filter (fun c => c.customer_id == e.customer_id)).flatMap (fun c =>
        (leftJoinRows (db.technicians.filter
            (fun t => wo.technician_id == some t.technician_id))).map (fun ot =>
          ⟨wo.workorder_id, wo.date_opened, e.equipment_id, e.make, e.model,
           c.first_name, c.last_name, ot.map Technician.name, wo.work_description⟩))))).mergeSort
    (fun a b => decide (a.date_opened ≤ b.date_opened))

/-- The store-mutating operations the application exposes (the UI buttons all
dispatch to one of these). -/
inductive Op where
  | addCustomer (first last phone address email : String)
  | addEquipment (customer_id : Nat) (make model cpu ram storage os_ serial : String)
  | addTechnician (name : String)
  | addPart (sku desc : String) (qty : Int) (cost : Rat)
  | createWorkorder (equipment_id : Nat) (technician_id : Option Nat)
      (work_description today : String)
  | closeWorkorder (workorder_id : Nat) (today : String)
  | addWorkDetail (workorder_id : Nat) (description today : String)
  | usePart (workorder_id part_id : Nat) (qty : Int)
deriving Repr, DecidableEq

/-- Effect of one operation on the store. -/
def applyOp (op : Op) (db : DB) : DB :=
  match op with
  | .addCustomer first last phone address email => (add_customer first last phone address email db).1
  | .addEquipment cid make model cpu ram storage os_ serial =>
      (add_equipment cid make model cpu ram storage os_ serial db).1
  | .addTechnician name => (add_technician name db).1
  | .addPart sku desc qty cost => (add_part sku desc qty cost db).1
  | .createWorkorder eid tid desc today => (create_workorder eid tid desc today db).1
  | .closeWorkorder wid today => close_workorder wid today db
  | .addWorkDetail wid desc today => (add_work_detail wid desc today db).1
  | .usePart wid pid qty => use_part wid pid qty db

/-- Effect of a sequence of operations, applied left to right. -/
def applyOps (ops : List Op) (db : DB) : DB := ops.foldl (fun s op => applyOp op s) db

/-- The empty store (all tables empty), as after init_db on a fresh file. -/
def emptyDB : DB := ⟨[], [], [], [], [], [], []⟩

/-- Concrete store with the default part (BAT-001, quantity 5, cost 25.0 —
the row the main block seeds) and one open work order. -/
def dbBattery : DB :=
  { emptyDB with
    parts := [⟨1, "BAT-001", "Replacement Battery", 5, 25⟩],
    workorders := [⟨1, 1, none, "2024-01-01", none, "Open", "screen repair"⟩] }

theorem le_foldr_max (x : Nat) (l : List Nat) (h : x ∈ l) : x ≤ l.foldr max 0 := by
  induction l with
  | nil => cases h
  | cons a t ih =>
    rcases List.mem_cons.mp h with rfl | hm
    · exact le_max_left _ _
    · exact le_trans (ih hm) (le_max_right _ _)

theorem freshId_not_mem (l : List Nat) : freshId l ∉ l := by
  intro h
  have h2 := le_foldr_max _ _ h
  unfold freshId at h2
  omega

theorem map_eq_self_of_eq {α : Type} (l : List α) (f : α → α) (h : ∀ x ∈ l, f x = x) :
    l.map f = l := by
  induction l with
  | nil => rfl
  | cons a t ih =>
    simp only [List.map_cons, h a (List.mem_cons_self a t)]
    rw [ih (fun x hx => h x (List.mem_cons_of_mem a hx))]

/-- C8 — close_workorder with an id matching no work order is a silent no-op:
no error is raised (the operation is total) and the whole store, every table
included, is returned unchanged. -/
theorem close_workorder_unknown_id_noop (db : DB) (wid : Nat) (today : String)
    (h : ∀ w ∈ db.workorders, w.workorder_id ≠ wid) :
    close_workorder wid today db = db := by
  have hmap : db.workorders.map (fun w =>
      if w.workorder_id == wid then { w with date_closed := some today, status := "Closed" }
      else w) = db.workorders := by
    apply map_eq_self_of_eq
    intro w hw
    simp [h w hw]
  cases db
  simp only [close_workorder, DB.mk.injEq, and_true, true_and]
  exact hmap

/-- Witness for C8 at a concrete input: closing id 2 on the battery store,
whose only work order has id 1, changes nothing. -/
theorem close_workorder_unknown_id_noop_witness :
    close_workorder 2 "2024-05-05" dbBattery = dbBattery :=
  close_workorder_unknown_id_noop dbBattery 2 "2024-05-05" (by decide)

/-- C10 — closing an already-Closed work order succeeds and overwrites its
date_closed with the current date: the row keeps its id, equipment,
technician, date_opened and description, its status stays Closed, date_closed
becomes today; rows with other ids and all other tables are untouched. -/
theorem close_workorder_reclose_overwrites (db : DB) (wid : Nat) (today : String)
    (w : WorkOrder) (hw : w ∈ db.workorders) (hid : w.workorder_id = wid)
    (hst : w.status = "Closed") :
    (∃ w2 ∈ (close_workorder wid today db).workorders,
        w2.workorder_id = wid ∧ w2.status = "Closed" ∧ w2.date_closed = some today ∧
        w2.equipment_id = w.equipment_id ∧ w2.technician_id = w.technician_id ∧
        w2.date_opened = w.date_opened ∧ w2.work_description = w.work_description) ∧
    (∀ w2 ∈ db.workorders, w2.workorder_id ≠ wid →
        w2 ∈ (close_workorder wid today db).workorders) ∧
    (close_workorder wid today db).customers = db.customers ∧
    (close_workorder wid today db).equipment = db.equipment ∧
    (close_workorder wid today db).technicians = db.technicians ∧
    (close_workorder wid today db).parts = db.parts ∧
    (close_workorder wid today db).workdetails = db.workdetails ∧
    (close_workorder wid today db).partsused = db.partsused := by
  refine ⟨⟨{ w with date_closed := some today, status := "Closed" }, ?_, by simp [hid]⟩,
    ?_, rfl, rfl, rfl, rfl, rfl, rfl⟩
  · simp only [close_workorder, List.mem_map]
    exact ⟨w, hw, by simp [hid]⟩
  · intro w2 hw2 hne
    simp only [close_workorder, List.mem_map]
    exact ⟨w2, hw2, by simp [hne]⟩

/-- Witness for C10: the battery store with its work order already closed on
2024-02-02; re-closing on 2024-03-03 keeps it Closed and overwrites
date_closed with 2024-03-03, so date_closed is not stable after the first
close. -/
theorem close_workorder_reclose_overwrites_witness :
    ∃ w2 ∈ (close_workorder 1 "2024-03-03"
        (close_workorder 1 "2024-02-02" dbBattery)).workorders,
      w2.workorder_id = 1 ∧ w2.status = "Closed" ∧ w2.date_closed = some "2024-03-03" ∧
      w2.equipment_id = 1 ∧ w2.technician_id = none ∧
      w2.date_opened = "2024-01-01" ∧ w2.work_description = "screen repair" :=
  (close_workorder_reclose_overwrites (close_workorder 1 "2024-02-02" dbBattery) 1
    "2024-03-03" ⟨1, 1, none, "2024-01-01", some "2024-02-02", "Closed", "screen repair"⟩
    (by simp [close_workorder, dbBattery, emptyDB]) rfl rfl).1

/-- C9 counterexample — the Record Store create operations do not validate
required fields: add_part with an empty sku (a required field per the spec)
raises no error and inserts a record, so it does not fail with
ValidationError and does not leave the table unchanged. -/
theorem add_part_empty_sku_inserts :
    ("" : String).isEmpty = true ∧
    (add_part "" "Replacement Battery" 5 25 emptyDB).1.parts.length = 1 ∧
    (add_part "" "Replacement Battery" 5 25 emptyDB).2 = 1 := by
  refine ⟨rfl, ?_, ?_⟩ <;> simp [add_part, emptyDB, freshId]

/-- C9 amended — store-level create performs no required-field validation:
for every input, empty strings included, add_customer and add_part insert
exactly one new record carrying the given field values and return a freshly
assigned id that no existing record of that table carries.  (The only
presence check in the program is on the customer first/last name fields in
the UI form, which shows a dialog instead of raising ValidationError; part
sku is never checked anywhere.) -/
theorem create_no_validation_fresh_id (db : DB)
    (first last phone address email sku desc : String) (qty : Int) (cost : Rat) :
    ((add_customer first last phone address email db).1.customers =
        db.customers ++
          [⟨(add_customer first last phone address email db).2,
            first, last, phone, address, email⟩] ∧
      ∀ c ∈ db.customers,
        c.customer_id ≠ (add_customer first last phone address email db).2) ∧
    ((add_part sku desc qty cost db).1.parts =
        db.parts ++ [⟨(add_part sku desc qty cost db).2, sku, desc, qty, cost⟩] ∧
      ∀ pt ∈ db.parts, pt.part_id ≠ (add_part sku desc qty cost db).2) := by
  refine ⟨⟨rfl, ?_⟩, ⟨rfl, ?_⟩⟩
  · intro c hc he
    have hm : c.customer_id ∈ db.customers.map Customer.customer_id :=
      List.mem_map.mpr ⟨c, hc, rfl⟩
    rw [he] at hm
    exact freshId_not_mem (db.customers.map Customer.customer_id) hm
  · intro pt hpt he
    have hm : pt.part_id ∈ db.parts.map Part.part_id :=
      List.mem_map.mpr ⟨pt, hpt, rfl⟩
    rw [he] at hm
    exact freshId_not_mem (db.parts.map Part.part_id) hm

/-- C2 — use_part with q > 0 and existing workorder and part: the referenced
part row is replaced by the same row with quantity decreased by exactly q,
rows of other parts are untouched, and the PartsUsed table grows by exactly
one new row carrying quantity q and referencing the given workorder and
part ids. -/
theorem use_part_decrements_and_records (db : DB) (wo p : Nat) (q : Int)
    (hq : 0 < q) (hwo : ∃ w ∈ db.workorders, w.workorder_id = wo)
    (hp : ∃ pt ∈ db.parts, pt.part_id = p) :
    (∀ pt ∈ db.parts, pt.part_id = p →
        { pt with quantity := pt.quantity - q } ∈ (use_part wo p q db).parts) ∧
    (∀ pt ∈ db.parts, pt.part_id ≠ p → pt ∈ (use_part wo p q db).parts) ∧
    (use_part wo p q db).partsused =
      db.partsused ++
        [⟨freshId (db.partsused.map PartUsage.partsused_id), wo, p, q⟩] := by
  refine ⟨?_, ?_, rfl⟩
  · intro pt hpt hid
    simp only [use_part, use_part_decrement, use_part_insert, List.mem_map]
    exact ⟨pt, hpt, by simp [hid]⟩
  · intro pt hpt hid
    simp only [use_part, use_part_decrement, use_part_insert, List.mem_map]
    exact ⟨pt, hpt, by simp [hid]⟩

/-- Witness for C2: on the battery store (part 1 at quantity 5, work order 1),
use_part 1 1 2 leaves the part at quantity 3 and appends the PartsUsed row
(1, 1, 1, 2). -/
theorem use_part_decrements_and_records_witness :
    { part_id := 1, sku := "BAT-001", description := "Replacement Battery",
      quantity := (3 : Int), unit_cost := (25 : Rat) : Part } ∈
      (use_part 1 1 2 dbBattery).parts ∧
    (use_part 1 1 2 dbBattery).partsused = dbBattery.partsused ++ [⟨1, 1, 1, 2⟩] := by
  have h := use_part_decrements_and_records dbBattery 1 1 2 (by decide)
    ⟨⟨1, 1, none, "2024-01-01", none, "Open", "screen repair"⟩, by simp [dbBattery, emptyDB], rfl⟩
    ⟨⟨1, "BAT-001", "Replacement Battery", 5, 25⟩, by simp [dbBattery, emptyDB], rfl⟩
  refine ⟨?_, ?_⟩
  · have h1 := h.1 ⟨1, "BAT-001", "Replacement Battery", 5, 25⟩
      (by simp [dbBattery, emptyDB]) rfl
    simpa using h1
  · have h3 := h.2.2
    simpa [dbBattery, emptyDB, freshId] using h3

/-- C3 counterexample — use_part performs no quantity validation: called with
q = 0 (which is ≤ 0) on the battery store it raises no error (it is a total
function) and changes the state, inserting a PartsUsed row, contradicting
the claimed ValidationError-and-no-state-change behaviour. -/
theorem use_part_nonpositive_cex :
    (0 : Int) ≤ 0 ∧ use_part 1 1 0 dbBattery ≠ dbBattery := by
  refine ⟨le_refl 0, fun h => ?_⟩
  have hl := congrArg (fun s => s.partsused.length) h
  simp [use_part, use_part_decrement, use_part_insert, dbBattery, emptyDB] at hl

/-- C3 amended — use_part with q ≤ 0 raises no error and proceeds exactly as
for positive quantities: it appends a PartsUsed row carrying the non-positive
quantity and subtracts q from the matching part, so the part quantity does
not decrease (it increases when q < 0). -/
theorem use_part_nonpositive_no_validation (db : DB) (wo p : Nat) (q : Int)
    (hq : q ≤ 0) :
    (use_part wo p q db).partsused =
      db.partsused ++
        [⟨freshId (db.partsused.map PartUsage.partsused_id), wo, p, q⟩] ∧
    ∀ pt ∈ db.parts, pt.part_id = p →
      { pt with quantity := pt.quantity - q } ∈ (use_part wo p q db).parts ∧
      pt.quantity ≤ pt.quantity - q := by
  refine ⟨rfl, ?_⟩
  intro pt hpt hid
  constructor
  · simp only [use_part, use_part_decrement, use_part_insert, List.mem_map]
    exact ⟨pt, hpt, by simp [hid]⟩
  · omega

/-- Witness for C3 amended at q = -1 on the battery store. -/
theorem use_part_nonpositive_no_validation_witness :
    (-1 : Int) ≤ 0 ∧
    ((use_part 1 1 (-1) dbBattery).partsused =
        dbBattery.partsused ++
          [⟨freshId (dbBattery.partsused.map PartUsage.partsused_id), 1, 1, -1⟩] ∧
      ∀ pt ∈ dbBattery.parts, pt.part_id = 1 →
        { pt with quantity := pt.quantity - (-1) } ∈ (use_part 1 1 (-1) dbBattery).parts ∧
        pt.quantity ≤ pt.quantity - (-1)) :=
  ⟨by decide, use_part_nonpositive_no_validation dbBattery 1 1 (-1) (by decide)⟩

/-- C4 counterexample — use_part with ids referencing no workorder and no
part (the empty store has neither id 7 nor id 9) raises no error and changes
the state by inserting a dangling PartsUsed row, contradicting the claimed
NotFound-and-unchanged behaviour. -/
theorem use_part_unknown_ids_cex :
    (∀ w ∈ emptyDB.workorders, w.workorder_id ≠ 7) ∧
    (∀ pt ∈ emptyDB.parts, pt.part_id ≠ 9) ∧
    use_part 7 9 1 emptyDB ≠ emptyDB := by
  refine ⟨by simp [emptyDB], by simp [emptyDB], fun h => ?_⟩
  have hl := congrArg (fun s => s.partsused.length) h
  simp [use_part, use_part_decrement, use_part_insert, emptyDB] at hl

/-- C4 amended — use_part checks neither id: with a workorder id and a part
id referencing no existing record it raises no error, appends a PartsUsed row
referencing the unknown ids, and leaves the Parts and WorkOrders tables
unchanged (the UPDATE matches no row). -/
theorem use_part_unknown_ids_no_check (db : DB) (wo p : Nat) (q : Int)
    (hwo : ∀ w ∈ db.workorders, w.workorder_id ≠ wo)
    (hp : ∀ pt ∈ db.parts, pt.part_id ≠ p) :
    (use_part wo p q db).partsused =
      db.partsused ++
        [⟨freshId (db.partsused.map PartUsage.partsused_id), wo, p, q⟩] ∧
    (use_part wo p q db).parts = db.parts ∧
    (use_part wo p q db).workorders = db.workorders := by
  refine ⟨rfl, ?_, rfl⟩
  simp only [use_part, use_part_decrement, use_part_insert]
  apply map_eq_self_of_eq
  intro pt hpt
  simp [hp pt hpt]

/-- Witness for C4 amended at the empty store with ids 7 and 9. -/
theorem use_part_unknown_ids_no_check_witness :
    (use_part 7 9 1 emptyDB).partsused =
      emptyDB.partsused ++
        [⟨freshId (emptyDB.partsused.map PartUsage.partsused_id), 7, 9, 1⟩] ∧
    (use_part 7 9 1 emptyDB).parts = emptyDB.parts ∧
    (use_part 7 9 1 emptyDB).workorders = emptyDB.workorders :=
  use_part_unknown_ids_no_check emptyDB 7 9 1 (by simp [emptyDB]) (by simp [emptyDB])

/-- C5 counterexample — Part.quantity is driven negative by a single
consumption: the battery store holds every part at non-negative quantity
(part 1 has 5), yet after use_part 1 1 7 the part quantity is -2 < 0. -/
theorem part_quantity_negative_cex :
    (∀ pt ∈ dbBattery.parts, 0 ≤ pt.quantity) ∧
    ∃ pt ∈ (use_part 1 1 7 dbBattery).parts, pt.quantity < 0 := by
  constructor
  · intro pt hpt
    simp only [dbBattery, emptyDB, List.mem_singleton] at hpt
    subst hpt
    decide
  · refine ⟨⟨1, "BAT-001", "Replacement Battery", 5 - 7, 25⟩, ?_, by decide⟩
    simp [use_part, use_part_decrement, use_part_insert, dbBattery, emptyDB]

/-- C5 amended — use_part performs no stock check: when the requested
quantity exceeds the part's current quantity, the part ends with the exact
(negative) difference, so quantity ≥ 0 is not an invariant of usage. -/
theorem use_part_overdraws_stock (db : DB) (wo p : Nat) (q : Int) (pt : Part)
    (hpt : pt ∈ db.parts) (hid : pt.part_id = p) (hlt : pt.quantity < q) :
    ∃ pt2 ∈ (use_part wo p q db).parts,
      pt2.part_id = p ∧ pt2.quantity = pt.quantity - q ∧ pt2.quantity < 0 := by
  refine ⟨{ pt with quantity := pt.quantity - q }, ?_, by simp [hid], rfl, by simp; omega⟩
  simp only [use_part, use_part_decrement, use_part_insert, List.mem_map]
  exact ⟨pt, hpt, by simp [hid]⟩

/-- Witness for C5 amended: part 1 holds 5, consuming 7 leaves -2. -/
theorem use_part_overdraws_stock_witness :
    ∃ pt2 ∈ (use_part 1 1 7 dbBattery).parts,
      pt2.part_id = 1 ∧ pt2.quantity = (5 : Int) - 7 ∧ pt2.quantity < 0 :=
  use_part_overdraws_stock dbBattery 1 1 7 ⟨1, "BAT-001", "Replacement Battery", 5, 25⟩
    (by simp [dbBattery, emptyDB]) rfl (by decide)

/-- C1 counterexample — use_part is not atomic: each of its two statements is
committed by its own run_query call, and the store state at the commit point
between them (use_part_insert applied alone) is neither the initial state nor
the final both-writes state on the battery store, so an error in the second
statement leaves exactly one of the two writes applied. -/
theorem use_part_not_atomic_cex :
    use_part_insert 1 1 2 dbBattery ≠ dbBattery ∧
    use_part_insert 1 1 2 dbBattery ≠ use_part 1 1 2 dbBattery := by
  constructor
  · intro h
    have hl := congrArg (fun s => s.partsused.length) h
    simp [use_part_insert, dbBattery, emptyDB] at hl
  · intro h
    have hq := congrArg (fun s => s.parts.map Part.quantity) h
    simp [use_part, use_part_decrement, use_part_insert, dbBattery, emptyDB] at hq

/-- C1 amended — use_part issues its two writes as separate committed
statements: the full operation is the decrement applied after the insert, and
the intermediate committed state has the PartsUsed row inserted (one row
longer) while every part row is still unchanged; only the second statement
changes quantities, so both writes take effect only when both statements
run. -/
theorem use_part_two_separate_commits (db : DB) (wo p : Nat) (q : Int) :
    use_part wo p q db = use_part_decrement p q (use_part_insert wo p q db) ∧
    (use_part_insert wo p q db).parts = db.parts ∧
    (use_part_insert wo p q db).partsused.length = db.partsused.length + 1 := by
  refine ⟨rfl, rfl, ?_⟩
  simp [use_part_insert]

/-- Concrete store with part 1 in stock and work order 1 already Closed. -/
def dbClosed : DB :=
  { emptyDB with
    parts := [⟨1, "BAT-001", "Replacement Battery", 5, 25⟩],
    workorders := [⟨1, 1, none, "2024-01-01", some "2024-02-02", "Closed", "screen repair"⟩] }

/-- A sample mix of operations touching every table. -/
def opsDemo : List Op :=
  [Op.addTechnician "Default Tech", Op.usePart 1 1 1,
   Op.closeWorkorder 1 "2024-03-03", Op.createWorkorder 1 none "new job" "2024-03-04",
   Op.addWorkDetail 1 "note" "2024-03-05"]

theorem closed_stays_closed_step (op : Op) (db : DB) (wid : Nat)
    (hex : ∃ w ∈ db.workorders, w.workorder_id = wid)
    (hcl : ∀ w ∈ db.workorders, w.workorder_id = wid → w.status = "Closed") :
    (∃ w ∈ (applyOp op db).workorders, w.workorder_id = wid) ∧
    (∀ w ∈ (applyOp op db).workorders, w.workorder_id = wid → w.status = "Closed") := by
  cases op with
  | addCustomer a b c d e => exact ⟨hex, hcl⟩
  | addEquipment a b c d e f g h => exact ⟨hex, hcl⟩
  | addTechnician a => exact ⟨hex, hcl⟩
  | addPart a b c d => exact ⟨hex, hcl⟩
  | addWorkDetail a b c => exact ⟨hex, hcl⟩
  | usePart a b c => exact ⟨hex, hcl⟩
  | createWorkorder eid tid desc today =>
    obtain ⟨w, hw, hwid⟩ := hex
    constructor
    · exact ⟨w, List.mem_append_left _ hw, hwid⟩
    · intro w2 hw2 hwid2
      rcases List.mem_append.mp hw2 with hin | hnew
      · exact hcl w2 hin hwid2
      · exfalso
        have hfresh := freshId_not_mem (db.workorders.map WorkOrder.workorder_id)
        have : wid ∈ db.workorders.map WorkOrder.workorder_id :=
          List.mem_map.mpr ⟨w, hw, hwid⟩
        rw [List.mem_singleton] at hnew
        subst hnew
        simp only at hwid2
        rw [hwid2] at hfresh
        exact hfresh this
  | closeWorkorder wid2 today =>
    obtain ⟨w, hw, hwid⟩ := hex
    constructor
    · refine ⟨if w.workorder_id == wid2 then
          { w with date_closed := some today, status := "Closed" } else w, ?_, ?_⟩
      · simp only [applyOp, close_workorder, List.mem_map]
        exact ⟨w, hw, by split <;> simp⟩
      · split <;> simpa using hwid
    · intro w2 hw2 hwid2
      simp only [applyOp, close_workorder, List.mem_map] at hw2
      obtain ⟨w0, hw0, heq⟩ := hw2
      by_cases hc : w0.workorder_id == wid2
      · rw [if_pos hc] at heq
        rw [← heq]
      · rw [if_neg hc] at heq
        subst heq
        exact hcl w0 hw0 hwid2

/-- C6 — the work-order lifecycle is one-way: a work order carries status
Open immediately after create_workorder, every work order matching the closed
id carries status Closed immediately after close_workorder, and once every
row of an existing id is Closed, no sequence of store operations ever yields
a row of that id whose status is not Closed (the id also keeps existing). -/
theorem workorder_lifecycle_one_way (db : DB) (wid : Nat) (ops : List Op)
    (hex : ∃ w ∈ db.workorders, w.workorder_id = wid)
    (hcl : ∀ w ∈ db.workorders, w.workorder_id = wid → w.status = "Closed") :
    (∀ (db2 : DB) (eid : Nat) (tid : Option Nat) (desc today : String),
        ∃ w ∈ (create_workorder eid tid desc today db2).1.workorders,
          w.workorder_id = (create_workorder eid tid desc today db2).2 ∧
          w.status = "Open") ∧
    (∀ (db2 : DB) (wid2 : Nat) (today : String),
        ∀ w ∈ (close_workorder wid2 today db2).workorders,
          w.workorder_id = wid2 → w.status = "Closed") ∧
    ((∃ w ∈ (applyOps ops db).workorders, w.workorder_id = wid) ∧
      ∀ w ∈ (applyOps ops db).workorders, w.workorder_id = wid → w.status = "Closed") := by
  refine ⟨?_, ?_, ?_⟩
  · intro db2 eid tid desc today
    refine ⟨⟨freshId (db2.workorders.map WorkOrder.workorder_id),
        eid, tid, today, none, "Open", desc⟩, ?_, rfl, rfl⟩
    exact List.mem_append_right _ (List.mem_singleton.mpr rfl)
  · intro db2 wid2 today w hw hwid
    simp only [close_workorder, List.mem_map] at hw
    obtain ⟨w0, hw0, heq⟩ := hw
    by_cases hc : w0.workorder_id == wid2
    · rw [if_pos hc] at heq
      rw [← heq]
    · rw [if_neg hc] at heq
      subst heq
      exact absurd (beq_iff_eq.mpr hwid) hc
  · induction ops generalizing db with
    | nil => exact ⟨hex, hcl⟩
    | cons op t ih =>
      have h2 := closed_stays_closed_step op db wid hex hcl
      exact ih (applyOp op db) h2.1 h2.2

/-- Witness for C6: work order 1 of dbClosed is Closed; after the opsDemo
sequence (use a part, re-close, open a fresh work order, log a detail) id 1
still exists and every row with id 1 is still Closed. -/
theorem workorder_lifecycle_one_way_witness :
    (∃ w ∈ dbClosed.workorders, w.workorder_id = 1) ∧
    (∃ w ∈ (applyOps opsDemo dbClosed).workorders, w.workorder_id = 1) ∧
    (∀ w ∈ (applyOps opsDemo dbClosed).workorders, w.workorder_id = 1 →
      w.status = "Closed") :=
  ⟨⟨⟨1, 1, none, "2024-01-01", some "2024-02-02", "Closed", "screen repair"⟩,
      by simp [dbClosed, emptyDB], rfl⟩,
    (workorder_lifecycle_one_way dbClosed 1 opsDemo
      ⟨⟨1, 1, none, "2024-01-01", some "2024-02-02", "Closed", "screen repair"⟩,
        by simp [dbClosed, emptyDB], rfl⟩
      (by
        intro w hw hid
        simp only [dbClosed, emptyDB, List.mem_singleton] at hw
        subst hw
        rfl)).2.2.1,
    (workorder_lifecycle_one_way dbClosed 1 opsDemo
      ⟨⟨1, 1, none, "2024-01-01", some "2024-02-02", "Closed", "screen repair"⟩,
        by simp [dbClosed, emptyDB], rfl⟩
      (by
        intro w hw hid
        simp only [dbClosed, emptyDB, List.mem_singleton] at hw
        subst hw
        rfl)).2.2.2⟩

/-- C7 — every row get_open_workorders returns comes from a work order whose
status is Open (never Closed), and the returned sequence is sorted by
date_opened ascending. -/
theorem get_open_workorders_only_open_sorted (db : DB) :
    (∀ row ∈ get_open_workorders db,
        ∃ wo ∈ db.workorders, wo.workorder_id = row.workorder_id ∧
          wo.date_opened = row.date_opened ∧ wo.status = "Open") ∧
    List.Pairwise (fun a b : OpenWorkOrderRow => a.date_opened ≤ b.date_opened)
      (get_open_workorders db) := by
  constructor
  · intro row hrow
    rw [get_open_workorders, List.mem_mergeSort] at hrow
    simp only [List.mem_flatMap, List.mem_filter, List.mem_map] at hrow
    obtain ⟨wo, ⟨hwo, hst⟩, e, ⟨he, -⟩, c, ⟨hc, -⟩, ot, hot, heq⟩ := hrow
    refine ⟨wo, hwo, ?_, ?_, by simpa using hst⟩ <;> rw [← heq]
  · have htrans : ∀ a b c : OpenWorkOrderRow,
        decide (a.date_opened ≤ b.date_opened) = true →
        decide (b.date_opened ≤ c.date_opened) = true →
        decide (a.date_opened ≤ c.date_opened) = true := by
      intro a b c hab hbc
      rw [decide_eq_true_eq] at *
      exact le_trans hab hbc
    have htot : ∀ a b : OpenWorkOrderRow,
        (decide (a.date_opened ≤ b.date_opened) ||
          decide (b.date_opened ≤ a.date_opened)) = true := by
      intro a b
      rcases le_total a.date_opened b.date_opened with h | h <;> simp [h]
    rw [get_open_workorders]
    exact (List.sorted_mergeSort htrans htot _).imp (fun h => of_decide_eq_true h)

end RepairManager
